import Mathlib

/-!
Verification development for the Dot Triage service (`src/app.py`).

The Python source is shallowly embedded: pure string manipulation is
modelled over `List Char` (Python `str.strip`, `startswith`, `split`,
`rsplit`, `zfill`), the two external HTTP dependencies (the Airtable
ledger and the Anthropic completion API) are modelled as explicit
environment records / function parameters, and every network call the
code issues is recorded in an explicit operation log so that claims
about "issues exactly one write" / "never calls the store" can be
stated.  Python exceptions caught by `try/except` blocks are modelled by
boolean failure flags in the environment; the embedded functions are
total, which reflects that the Python functions never let an exception
escape on the modelled paths.
-/

/-- Characters stripped by Python `str.strip()` (ASCII whitespace; the
further Unicode whitespace characters that `str.strip` also removes play
no role in this code base and are not modelled). -/
def isPySpace (c : Char) : Bool :=
  c = ' ' || c = '\t' || c = '\n' || c = '\r' || c = '\x0b' || c = '\x0c'

/-- Python `s.strip()` over `List Char`: drop trailing whitespace (via
`reverse`), then leading whitespace. -/
def pyStripL (l : List Char) : List Char :=
  ((l.reverse.dropWhile isPySpace).reverse).dropWhile isPySpace

/-- The backtick character (written via its code point). -/
def btChar : Char := Char.ofNat 96

/-- The three-backtick markdown fence delimiter. -/
def fenceL : List Char := [btChar, btChar, btChar]

/-- Index of the first position of `l` at which `pat` occurs as a
prefix of the remaining list. -/
def firstPrefixIdx (pat : List Char) : List Char → Option Nat
  | [] => if pat.isPrefixOf ([] : List Char) then some 0 else none
  | c :: rest =>
      if pat.isPrefixOf (c :: rest) then some 0
      else (firstPrefixIdx pat rest).map (· + 1)

/-- Python `l.rsplit(pat, 1)[0]`: everything before the last occurrence
of `pat` (the whole list if `pat` does not occur).  Implemented by
searching for the first occurrence of the reversed pattern in the
reversed list. -/
def dropFromLast (pat l : List Char) : List Char :=
  match firstPrefixIdx pat.reverse l.reverse with
  | none => l
  | some j => ((l.reverse.drop (j + pat.length)).reverse)

/-- Python `content.split('\n', 1)[1]`: the part after the first
newline. -/
def afterFirstNewline (l : List Char) : List Char :=
  (l.dropWhile (fun c => c != '\n')).tail

/-- `strip_markdown_json` from `src/app.py` over `List Char`:
strip; if the text starts with a fence, drop through the first newline
(or just the three backticks when there is no newline); if it ends with
a fence, drop from the last fence; strip again. -/
def strip_markdown_jsonL (l : List Char) : List Char :=
  let c0 := pyStripL l
  let c1 :=
    if fenceL.isPrefixOf c0 then
      (if c0.contains '\n' then afterFirstNewline c0 else c0.drop 3)
    else c0
  let c2 := if fenceL.isSuffixOf c1 then dropFromLast fenceL c1 else c1
  pyStripL c2

/-- `strip_markdown_json` from `src/app.py` ("Strip markdown code blocks
from Claude's JSON response"), lifted to `String`. -/
def strip_markdown_json (s : String) : String :=
  String.mk (strip_markdown_jsonL s.data)

/-- Python `str(n).zfill(width)` for an integer rendered by `toString`:
left-pad with zeros to `width`, keeping a leading sign in front of the
padding. -/
def zfill (width : Nat) (s : String) : String :=
  if width ≤ s.length then s
  else
    match s.data with
    | c :: rest =>
        if c = '-' ∨ c = '+' then
          String.mk (c :: (List.replicate (width - s.length) '0' ++ rest))
        else String.mk (List.replicate (width - s.length) '0' ++ s.data)
    | [] => String.mk (List.replicate width '0')

example : strip_markdown_json "```json\nhi\n```" = "hi" := by decide
example : strip_markdown_json "```\n```abc" = "```abc" := by decide
example : strip_markdown_json "```abc" = "abc" := by decide
example : zfill 3 (toString (23 : Int)) = "023" := by decide
example : zfill 3 (toString (1 : Int)) = "001" := by decide

/-- The `fields` object of an Airtable record of the Clients table, as
read by `get_client_by_code`: each field that the code accesses with
`fields.get` is optional. -/
structure AirtableFields where
  client : Option String := none
  teamsId : Option String := none
  sharepointId : Option String := none
  nextNum : Option Int := none
deriving Repr, DecidableEq

/-- One record returned by the Airtable search (`id` plus `fields`). -/
structure AirtableRecord where
  id : String
  fields : AirtableFields
deriving Repr, DecidableEq

/-- The dictionary returned by `get_client_by_code` on success. -/
structure ClientRecord where
  recordId : String
  clientCode : String
  clientName : String
  teamsId : Option String
  sharepointUrl : Option String
  nextNumber : Int
deriving Repr, DecidableEq

/-- A `PATCH` issued against a client record: the record id and the new
value written to the `Next #` field. -/
structure WriteOp where
  recordId : String
  nextNum : Int
deriving Repr, DecidableEq

/-- The state of the world the Airtable helpers run against:
the configured API key (`AIRTABLE_API_KEY`, `none` for unset), the
records matching each client-code filter, whether the search request
raises (transport error, HTTP error status via `raise_for_status`, or a
bad JSON body), whether the `PATCH` raises (transport error/timeout),
and whether the store actually applies a non-raising `PATCH` (the code
never inspects the patch response, so this flag must be invisible to
every result). -/
structure LedgerEnv where
  apiKey : Option String := none
  found : String → List AirtableRecord := fun _ => []
  readRaises : String → Bool := fun _ => false
  patchRaises : Bool := false
  patchApplied : Bool := true

/-- Python truthiness of the configured key: `if not AIRTABLE_API_KEY`
is taken for an unset variable and for the empty string. -/
def keyTruthy : Option String → Bool
  | none => false
  | some s => !(s == "")

/-- `get_client_by_code` from `src/app.py`, returning the result
together with the list of search reads issued (the argument of each
`filterByFormula` query).  Returns `none` when the key is missing, when
the request raises, or when the filter matches no record; otherwise
builds the client dictionary from the first matching record, defaulting
a missing `Next #` field to `1`. -/
def get_client_by_code (env : LedgerEnv) (code : String) :
    Option ClientRecord × List String :=
  if !(keyTruthy env.apiKey) then (none, [])
  else if env.readRaises code then (none, [code])
  else
    match env.found code with
    | [] => (none, [code])
    | r :: _ =>
        (some { recordId := r.id
                clientCode := code
                clientName := r.fields.client.getD ""
                teamsId := r.fields.teamsId
                sharepointUrl := r.fields.sharepointId
                nextNumber := r.fields.nextNum.getD 1 },
         [code])

/-- `increment_client_job_number` from `src/app.py`, returning the
4-tuple `(job_number, teams_id, sharepoint_url, record_id)` together
with the reads and the `PATCH` writes issued.  On a missing key or an
absent client it returns the `"{client_code} TBC"` sentinel with null
metadata.  On a present client it formats the job number from the read
`nextNumber`, issues one `PATCH` setting `Next #` to `nextNumber + 1`,
and — because the patch response is never checked but a raising patch
lands in the surrounding `except` block — returns the computed job
number if the patch did not raise, and the sentinel if it raised. -/
def increment_client_job_number (env : LedgerEnv) (code : String) :
    (String × Option String × Option String × Option String) × List String × List WriteOp :=
  if !(keyTruthy env.apiKey) then ((code ++ " TBC", none, none, none), [], [])
  else
    match get_client_by_code env code with
    | (none, reads) => ((code ++ " TBC", none, none, none), reads, [])
    | (some client, reads) =>
        let current := client.nextNumber
        let next := current + 1
        let job_number := code ++ " " ++ zfill 3 (toString current)
        let write : WriteOp := { recordId := client.recordId, nextNum := next }
        if env.patchRaises then
          ((code ++ " TBC", none, none, none), reads, [write])
        else
          ((job_number, client.teamsId, client.sharepointUrl, some client.recordId),
           reads, [write])

/-- `get_triage_header` from `src/app.py`. -/
def get_triage_header : String :=
  "https://mghunch.github.io/hunch-assets/Header_Triage.png"

/-- The untyped `analysis` mapping parsed from the model completion,
restricted to the keys the code reads (`analysis.get(...)`): every
recognized field is optional.  Unrecognized keys are never read by the
code, so they do not appear in the model. -/
structure TriageAnalysis where
  clientCode : Option String := none
  jobName : Option String := none
  clientName : Option String := none
  projectOwner : Option String := none
  objective : Option String := none
  liveDate : Option String := none
  hunchAsk : Option String := none
  nextAction : Option String := none
  who : Option String := none
  what : Option String := none
  why : Option String := none
  questions : Option (List String) := none
  teamsPost : Option String := none
deriving Repr, DecidableEq

/-- The `<img>` header of the email when a header URL is configured. -/
def headerImg (url : String) : String :=
  "<img src=\"" ++ url ++
    "\" width=\"600\" style=\"width: 100%; max-width: 600px; height: auto; display: block;\" alt=\"Hunch Triage\">"

/-- The text fallback header used when no header URL is configured. -/
def headerFallback : String :=
  "<span style=\"font-size: 28px; font-weight: bold; color: #ED1C24;\">HUNCH &mdash; TRIAGE</span>"

/-- Python `''.join(...)`: concatenation of a list of strings in
order. -/
def joinStrs : List String → String
  | [] => ""
  | s :: rest => s ++ joinStrs rest

/-- One bulleted question paragraph of the email. -/
def bulletP (q : String) : String :=
  "<p style=\"margin: 0 0 8px 0;\">&bull; " ++ q ++ "</p>"

/-- The literal paragraph rendered when the questions list is empty. -/
def noQuestionsP : String :=
  "<p style=\"margin: 0;\">No questions at this stage.</p>"

/-- The part of the `build_triage_email` HTML template before the
questions block, with the interpolations of the f-string in source
order: `header_content`, `job_number`, `analysis.get('jobName', 'New
Project')`, `today`, then the `TOPLINE` / `THE PROJECT` / `THE
CUSTOMER` table rows with their `analysis.get(..., 'TBC')` values.
Literal `\x7b` and `\x7d` braces of the CSS are written as hex
escapes. -/
def emailHead (header_content job_number : String) (analysis : TriageAnalysis)
    (today : String) : String :=
  "<!DOCTYPE html>\n<html>\n<head>\n  <meta charset=\"utf-8\">\n  <meta name=\"viewport\" content=\"width=device-width, initial-scale=1.0\">\n  <meta http-equiv=\"X-UA-Compatible\" content=\"IE=edge\">\n  <!--[if mso]>\n  <style type=\"text/css\">\n    table \x7bborder-collapse: collapse; border-spacing: 0; margin: 0;\x7d\n    div, td \x7bpadding: 0;\x7d\n    div \x7bmargin: 0 !important;\x7d\n  </style>\n  <noscript>\n    <xml>\n      <o:OfficeDocumentSettings>\n        <o:PixelsPerInch>96</o:PixelsPerInch>\n      </o:OfficeDocumentSettings>\n    </xml>\n  </noscript>\n  <![endif]-->\n  <style>\n    @media screen and (max-width: 600px) \x7b\n      .wrapper \x7b\n        width: 100% !important;\n        padding: 12px !important;\n      \x7d\n    \x7d\n  </style>\n</head>\n<body style=\"margin: 0; padding: 0; font-family: Calibri, Arial, sans-serif; background-color: #f5f5f5; width: 100% !important; -webkit-text-size-adjust: 100%; -ms-text-size-adjust: 100%;\">\n  \n  <table class=\"wrapper\" width=\"600\" cellpadding=\"0\" cellspacing=\"0\" style=\"width: 600px; max-width: 100%; margin: 0 0 0 20px; background-color: #ffffff;\">\n    \n    <!-- Header -->\n    <tr>\n      <td style=\"border-bottom: 4px solid #ED1C24; padding: 0 20px 20px 20px;\">\n        "
  ++ header_content
  ++ "\n        <p style=\"margin: 15px 0 0 0; font-size: 22px; font-weight: bold; color: #333;\">"
  ++ job_number ++ " &mdash; " ++ analysis.jobName.getD "New Project"
  ++ "</p>\n        <p style=\"margin: 5px 0 0 0; font-size: 12px; color: #999;\">"
  ++ today
  ++ "</p>\n      </td>\n    </tr>\n    \n    <!-- Topline Detail Section -->\n    <tr>\n      <td style=\"padding: 20px 20px 0 20px;\">\n        <div style=\"background-color: #ED1C24; color: #ffffff; padding: 8px 15px; font-size: 14px; font-weight: bold; border-radius: 3px;\">\n          TOPLINE: Who, what, when?\n        </div>\n      </td>\n    </tr>\n    <tr>\n      <td style=\"padding: 15px 20px; border-bottom: 1px solid #eee;\">\n        <table cellpadding=\"0\" cellspacing=\"0\" style=\"font-size: 14px; color: #333; width: 100%;\">\n          <tr><td style=\"padding: 4px 0; width: 120px; color: #888;\"><strong>Client</strong></td><td style=\"padding: 4px 0;\">"
  ++ analysis.clientName.getD "TBC"
  ++ "</td></tr>\n          <tr><td style=\"padding: 4px 0; color: #888;\"><strong>Owner</strong></td><td style=\"padding: 4px 0;\">"
  ++ analysis.projectOwner.getD "TBC"
  ++ "</td></tr>\n          <tr><td style=\"padding: 4px 0; color: #888;\"><strong>Objective</strong></td><td style=\"padding: 4px 0;\">"
  ++ analysis.objective.getD "TBC"
  ++ "</td></tr>\n          <tr><td style=\"padding: 4px 0; color: #888;\"><strong>Live Date</strong></td><td style=\"padding: 4px 0;\">"
  ++ analysis.liveDate.getD "TBC"
  ++ "</td></tr>\n        </table>\n      </td>\n    </tr>\n    \n    <!-- The Project Section -->\n    <tr>\n      <td style=\"padding: 20px 20px 0 20px;\">\n        <div style=\"background-color: #ED1C24; color: #ffffff; padding: 8px 15px; font-size: 14px; font-weight: bold; border-radius: 3px;\">\n          THE PROJECT: What needs to be done?\n        </div>\n      </td>\n    </tr>\n    <tr>\n      <td style=\"padding: 15px 20px; border-bottom: 1px solid #eee;\">\n        <table cellpadding=\"0\" cellspacing=\"0\" style=\"font-size: 14px; color: #333; width: 100%;\">\n          <tr><td style=\"padding: 4px 0; width: 120px; color: #888;\"><strong>Hunch Ask</strong></td><td style=\"padding: 4px 0;\">"
  ++ analysis.hunchAsk.getD "TBC"
  ++ "</td></tr>\n          <tr><td style=\"padding: 4px 0; color: #888;\"><strong>Next Action</strong></td><td style=\"padding: 4px 0;\">"
  ++ analysis.nextAction.getD "TBC"
  ++ "</td></tr>\n        </table>\n      </td>\n    </tr>\n    \n    <!-- The Customer Section -->\n    <tr>\n      <td style=\"padding: 20px 20px 0 20px;\">\n        <div style=\"background-color: #ED1C24; color: #ffffff; padding: 8px 15px; font-size: 14px; font-weight: bold; border-radius: 3px;\">\n          THE CUSTOMER: Why will anyone care?\n        </div>\n      </td>\n    </tr>\n    <tr>\n      <td style=\"padding: 15px 20px; border-bottom: 1px solid #eee;\">\n        <table cellpadding=\"0\" cellspacing=\"0\" style=\"font-size: 14px; color: #333; width: 100%;\">\n          <tr><td style=\"padding: 4px 0; width: 120px; color: #888;\"><strong>Who?</strong></td><td style=\"padding: 4px 0;\">"
  ++ analysis.who.getD "TBC"
  ++ "</td></tr>\n          <tr><td style=\"padding: 4px 0; color: #888;\"><strong>What?</strong></td><td style=\"padding: 4px 0;\">"
  ++ analysis.what.getD "TBC"
  ++ "</td></tr>\n          <tr><td style=\"padding: 4px 0; color: #888;\"><strong>Why?</strong></td><td style=\"padding: 4px 0;\">"
  ++ analysis.why.getD "TBC"
  ++ "</td></tr>\n        </table>\n      </td>\n    </tr>\n    \n    <!-- Questions Section -->\n    <tr>\n      <td style=\"padding: 20px 20px 0 20px;\">\n        <div style=\"background-color: #999999; color: #ffffff; padding: 8px 15px; font-size: 14px; font-weight: bold; border-radius: 3px;\">\n          QUESTIONS\n        </div>\n      </td>\n    </tr>\n    <tr>\n      <td style=\"padding: 15px 20px; color: #888; font-size: 14px;\">\n        "

/-- The part of the `build_triage_email` HTML template after the
questions block (the footer); a constant. -/
def emailFoot : String :=
  "\n      </td>\n    </tr>\n    \n    <!-- Footer -->\n    <tr>\n      <td style=\"padding: 25px 20px; border-top: 1px solid #eee; text-align: center;\">\n        <p style=\"margin: 0; font-size: 12px; color: #888; font-style: italic;\">Dot captures known facts and flags gaps. Scope and insight may change once the humans dig in.</p>\n        <p style=\"margin: 12px 0 0 0; font-size: 13px; color: #888; font-weight: bold;\">Any questions or queries, <a href=\"mailto:michael@hunch.co.nz\" style=\"color: #888;\">get in touch</a></p>\n      </td>\n    </tr>\n    \n  </table>\n  \n</body>\n</html>"

/-- `build_triage_email` from `src/app.py`.  The Python function also
reads the current date (`date.today().strftime('%d %B %Y')`); that
ambient input is made an explicit final argument `today` here.  The
header is the `<img>` tag when `header_url` is truthy (not `None`, not
empty) and the text fallback otherwise; the questions block is the
concatenated bullet paragraphs, or the literal no-questions paragraph
when that concatenation is empty. -/
def build_triage_email (job_number : String) (analysis : TriageAnalysis)
    (header_url : Option String) (today : String) : String :=
  let header_content :=
    match header_url with
    | some u => if u = "" then headerFallback else headerImg u
    | none => headerFallback
  let questions := analysis.questions.getD []
  let questions_html := joinStrs (questions.map bulletP)
  emailHead header_content job_number analysis today
    ++ (if questions_html = "" then noQuestionsP else questions_html)
    ++ emailFoot

/-- The JSON body and status code of a `/triage` response.  Keys absent
from a given response shape stay `none`; `teamId` and `sharepointUrl`
are doubly optional because the success body always carries the key but
its value may be JSON `null`.  The `details` string of the two error
shapes (`str(e)` of the Python exception) is not modelled. -/
structure HttpResp where
  status : Nat
  errorMsg : Option String := none
  rawResponse : Option String := none
  jobNumber : Option String := none
  jobName : Option String := none
  clientCode : Option String := none
  clientName : Option String := none
  projectOwner : Option String := none
  teamId : Option (Option String) := none
  sharepointUrl : Option (Option String) := none
  emailBody : Option String := none
  teamsPost : Option String := none
  fullAnalysis : Option TriageAnalysis := none
deriving Repr, DecidableEq

/-- Everything observable about one `/triage` request: the HTTP
response, the ledger reads and writes issued, and the local
`client_record_id` variable (computed by the handler but not included
in the response body). -/
structure TriageOutcome where
  resp : HttpResp
  reads : List String
  writes : List WriteOp
  clientRecordId : Option String
deriving Repr, DecidableEq

/-- The `/triage` handler from `src/app.py`.  External inputs are
explicit: `env` is the Airtable world, `parseJson` models `json.loads`
restricted to this handler's use (`none` = `json.JSONDecodeError`,
`some a` = a JSON object with the recognized keys), `today` is the
current date string, `emailContent` is `data.get('emailContent')`, and
`completion` is the text block returned by the model.  Control flow
follows the source: empty content → 400; fence-strip then parse, parse
failure → 500 with the stripped text echoed in `raw_response`;
otherwise the extracted client code (default `'TBC'`) selects either
`increment_client_job_number` or the reserved-code bypass, and the 200
body is assembled, including the built email. -/
def triage (env : LedgerEnv) (parseJson : String → Option TriageAnalysis)
    (today : String) (emailContent : Option String) (completion : String) :
    TriageOutcome :=
  let email_content := emailContent.getD ""
  if email_content = "" then
    { resp := { status := 400, errorMsg := some "No email content provided" }
      reads := [], writes := [], clientRecordId := none }
  else
    let content := strip_markdown_json completion
    match parseJson content with
    | none =>
        { resp := { status := 500
                    errorMsg := some "Claude returned invalid JSON"
                    rawResponse := some content }
          reads := [], writes := [], clientRecordId := none }
    | some analysis =>
        let client_code := analysis.clientCode.getD "TBC"
        let r :=
          if ¬ (client_code = "HUN" ∨ client_code = "TBC") then
            increment_client_job_number env client_code
          else
            ((client_code ++ " TBC", none, none, none), [], [])
        let job_number := r.1.1
        let team_id := r.1.2.1
        let sharepoint_url := r.1.2.2.1
        let client_record_id := r.1.2.2.2
        let header_url := get_triage_header
        let email_body := build_triage_email job_number analysis (some header_url) today
        { resp := { status := 200
                    jobNumber := some job_number
                    jobName := some (analysis.jobName.getD "Untitled")
                    clientCode := some client_code
                    clientName := some (analysis.clientName.getD "")
                    projectOwner := some (analysis.projectOwner.getD "")
                    teamId := some team_id
                    sharepointUrl := some sharepoint_url
                    emailBody := some email_body
                    teamsPost := some (analysis.teamsPost.getD "")
                    fullAnalysis := some analysis }
          reads := r.2.1, writes := r.2.2, clientRecordId := client_record_id }

/-- Claim C2: for a client whose record is present with `Next # = 23`
(and the request environment behaving: key configured, search and patch
transport succeeding, which is what "record exists in the store" can
observe), `increment_client_job_number` returns the job number
`clientCode ++ " 023"` and issues exactly one write setting `Next #`
to `24`. -/
theorem increment_known_client_23 (env : LedgerEnv) (code : String)
    (r : AirtableRecord) (rest : List AirtableRecord)
    (hkey : keyTruthy env.apiKey = true)
    (hread : env.readRaises code = false)
    (hfound : env.found code = r :: rest)
    (hnext : r.fields.nextNum = some 23)
    (hpatch : env.patchRaises = false) :
    (increment_client_job_number env code).1.1 = code ++ " 023" ∧
    (increment_client_job_number env code).2.2 =
      [{ recordId := r.id, nextNum := 24 }] := by
  have h23 : zfill 3 (toString (23 : Int)) = "023" := by decide
  simp [increment_client_job_number, get_client_by_code, hkey, hread, hfound,
    hnext, hpatch, h23]
  rw [String.append_assoc]
  exact congrArg (fun s => code ++ s)
    (show (" " ++ "023" : String) = " 023" by decide)

/-- Witness for claim C2 at a concrete store with `TOW` at `Next # = 23`. -/
theorem increment_known_client_23_witness :
    (increment_client_job_number
        { apiKey := some "key"
          found := fun _ => [{ id := "recTOW", fields := { nextNum := some 23 } }] }
        "TOW").1.1 = "TOW" ++ " 023" ∧
    (increment_client_job_number
        { apiKey := some "key"
          found := fun _ => [{ id := "recTOW", fields := { nextNum := some 23 } }] }
        "TOW").2.2 = [{ recordId := "recTOW", nextNum := 24 }] :=
  increment_known_client_23
    { apiKey := some "key"
      found := fun _ => [{ id := "recTOW", fields := { nextNum := some 23 } }] }
    "TOW" { id := "recTOW", fields := { nextNum := some 23 } } []
    (by decide) rfl rfl rfl rfl

/-- Claim C5: on an absent client record — missing/empty API key, a
raising search request (transport or HTTP error), or zero matches —
`increment_client_job_number` returns the sentinel
`"{clientCode} TBC"` with null metadata and issues zero writes.  (The
embedded function is total: the Python `try/except` guarantees no
exception escapes on these paths.) -/
theorem increment_absent_client_sentinel (env : LedgerEnv) (code : String)
    (h : keyTruthy env.apiKey = false ∨ env.readRaises code = true ∨
      env.found code = []) :
    (increment_client_job_number env code).1 = (code ++ " TBC", none, none, none) ∧
    (increment_client_job_number env code).2.2 = [] := by
  by_cases hk : keyTruthy env.apiKey = true
  · rcases h with h | h | h
    · rw [hk] at h; exact absurd h (by decide)
    · simp [increment_client_job_number, get_client_by_code, hk, h]
    · by_cases hr : env.readRaises code = true
      · simp [increment_client_job_number, get_client_by_code, hk, hr]
      · simp [increment_client_job_number, get_client_by_code, hk, hr, h]
  · simp [increment_client_job_number, hk]

/-- Witness for claim C5: unknown client code against a store with no
records. -/
theorem increment_absent_client_sentinel_witness :
    (increment_client_job_number { apiKey := some "key" } "ZZZ").1 =
      ("ZZZ" ++ " TBC", none, none, none) ∧
    (increment_client_job_number { apiKey := some "key" } "ZZZ").2.2 = [] :=
  increment_absent_client_sentinel { apiKey := some "key" } "ZZZ"
    (Or.inr (Or.inr rfl))

/-- Claim C10: a present record with no `Next #` field is read back as
`nextNumber = 1` by `get_client_by_code`, so
`increment_client_job_number` returns `"{clientCode} 001"` and writes
`Next # = 2` — a missing counter field acts as a counter at 1, not as
an absent client. -/
theorem increment_missing_next_defaults (env : LedgerEnv) (code : String)
    (r : AirtableRecord) (rest : List AirtableRecord)
    (hkey : keyTruthy env.apiKey = true)
    (hread : env.readRaises code = false)
    (hfound : env.found code = r :: rest)
    (hnone : r.fields.nextNum = none)
    (hpatch : env.patchRaises = false) :
    (get_client_by_code env code).1 =
      some { recordId := r.id, clientCode := code
             clientName := r.fields.client.getD ""
             teamsId := r.fields.teamsId
             sharepointUrl := r.fields.sharepointId
             nextNumber := 1 } ∧
    (increment_client_job_number env code).1.1 = code ++ " 001" ∧
    (increment_client_job_number env code).2.2 =
      [{ recordId := r.id, nextNum := 2 }] := by
  have h1 : zfill 3 (toString (1 : Int)) = "001" := by decide
  simp [increment_client_job_number, get_client_by_code, hkey, hread, hfound,
    hnone, hpatch, h1]
  rw [String.append_assoc]
  exact congrArg (fun s => code ++ s)
    (show (" " ++ "001" : String) = " 001" by decide)

/-- Witness for claim C10 at a concrete record lacking `Next #`. -/
theorem increment_missing_next_defaults_witness :
    (get_client_by_code
        { apiKey := some "key", found := fun _ => [{ id := "recA", fields := {} }] }
        "ABC").1 =
      some { recordId := "recA", clientCode := "ABC", clientName := ""
             teamsId := none, sharepointUrl := none, nextNumber := 1 } ∧
    (increment_client_job_number
        { apiKey := some "key", found := fun _ => [{ id := "recA", fields := {} }] }
        "ABC").1.1 = "ABC" ++ " 001" ∧
    (increment_client_job_number
        { apiKey := some "key", found := fun _ => [{ id := "recA", fields := {} }] }
        "ABC").2.2 = [{ recordId := "recA", nextNum := 2 }] :=
  increment_missing_next_defaults
    { apiKey := some "key", found := fun _ => [{ id := "recA", fields := {} }] }
    "ABC" { id := "recA", fields := {} } [] (by decide) rfl rfl rfl rfl

/-- A store holding client `TOW` at `Next # = 23` whose `PATCH` raises a
transport error: the environment of the claim C1 counterexample. -/
def envPatchRaise : LedgerEnv :=
  { apiKey := some "key"
    found := fun _ => [{ id := "recTOW", fields := { nextNum := some 23 } }]
    patchRaises := true
    patchApplied := false }

/-- Counterexample to claim C1 as stated: the lookup succeeds (the read
sequence number 23 determines job number `"TOW 023"`) and the
subsequent write fails by raising, yet `increment_client_job_number`
returns the sentinel `"TOW TBC"` with null metadata — the write failure
does change the returned job number, because `httpx.patch` raising a
transport error lands in the function's `except` block. -/
theorem increment_write_raise_cex :
    (get_client_by_code envPatchRaise "TOW").1 =
      some { recordId := "recTOW", clientCode := "TOW", clientName := ""
             teamsId := none, sharepointUrl := none, nextNumber := 23 } ∧
    envPatchRaise.patchRaises = true ∧
    (increment_client_job_number envPatchRaise "TOW").1 =
      ("TOW TBC", none, none, none) ∧
    ("TOW TBC" : String) ≠ "TOW 023" := by
  decide

/-- Claim C1 amended: after a successful lookup, the read-derived job
number and the client metadata are returned whenever the `PATCH` call
itself does not raise — its HTTP response is never inspected, so a
store-side write failure (`patchApplied` arbitrary in `env`) is
swallowed and cannot change the result; but when the `PATCH` raises
(transport error/timeout), the handler's `except` block returns the
sentinel `"{clientCode} TBC"` with null metadata instead of the
already-computed number. -/
theorem increment_write_failure_behaviour (env : LedgerEnv) (code : String)
    (client : ClientRecord) (reads : List String)
    (hkey : keyTruthy env.apiKey = true)
    (hclient : get_client_by_code env code = (some client, reads)) :
    (env.patchRaises = false →
      increment_client_job_number env code =
        ((code ++ " " ++ zfill 3 (toString client.nextNumber), client.teamsId,
          client.sharepointUrl, some client.recordId), reads,
         [{ recordId := client.recordId, nextNum := client.nextNumber + 1 }])) ∧
    (env.patchRaises = true →
      increment_client_job_number env code =
        ((code ++ " TBC", none, none, none), reads,
         [{ recordId := client.recordId, nextNum := client.nextNumber + 1 }])) := by
  constructor <;> intro hp <;>
    simp [increment_client_job_number, hkey, hclient, hp]

/-- A store identical to `envPatchRaise` except that the `PATCH` call
completes without raising while the store still rejects the update. -/
def envPatchRejected : LedgerEnv :=
  { apiKey := some "key"
    found := fun _ => [{ id := "recTOW", fields := { nextNum := some 23 } }]
    patchRaises := false
    patchApplied := false }

/-- Witness for amended claim C1: with a non-raising but rejected write
the computed number `"TOW 023"` is still returned; with a raising write
the sentinel is returned. -/
theorem increment_write_failure_behaviour_witness :
    (increment_client_job_number envPatchRejected "TOW").1.1 = "TOW 023" ∧
    (increment_client_job_number envPatchRaise "TOW").1.1 = "TOW TBC" := by
  constructor
  · rw [(increment_write_failure_behaviour envPatchRejected "TOW"
        { recordId := "recTOW", clientCode := "TOW", clientName := ""
          teamsId := none, sharepointUrl := none, nextNumber := 23 } ["TOW"]
        (by decide) (by decide)).1 rfl]
    decide
  · rw [(increment_write_failure_behaviour envPatchRaise "TOW"
        { recordId := "recTOW", clientCode := "TOW", clientName := ""
          teamsId := none, sharepointUrl := none, nextNumber := 23 } ["TOW"]
        (by decide) (by decide)).2 rfl]
    rfl

/-- Claim C4: when the extracted client code is `"HUN"` or `"TBC"`
(including by defaulting when the key is absent), the `/triage` handler
issues no ledger read and no write regardless of the store state, and
the response carries `"{code} TBC"` as job number with null `teamId`,
null `sharepointUrl`, and a null local record id. -/
theorem triage_reserved_bypass (env : LedgerEnv)
    (parseJson : String → Option TriageAnalysis) (today ec completion : String)
    (a : TriageAnalysis)
    (hec : ec ≠ "")
    (hp : parseJson (strip_markdown_json completion) = some a)
    (hcode : a.clientCode.getD "TBC" = "HUN" ∨ a.clientCode.getD "TBC" = "TBC") :
    (triage env parseJson today (some ec) completion).reads = [] ∧
    (triage env parseJson today (some ec) completion).writes = [] ∧
    (triage env parseJson today (some ec) completion).resp.jobNumber =
      some (a.clientCode.getD "TBC" ++ " TBC") ∧
    (triage env parseJson today (some ec) completion).resp.teamId = some none ∧
    (triage env parseJson today (some ec) completion).resp.sharepointUrl =
      some none ∧
    (triage env parseJson today (some ec) completion).clientRecordId = none := by
  simp [triage, hec, hp, hcode]

/-- Witness for claim C4: a completion naming client `HUN` against a
store that does hold records — still no read, no write, `"HUN TBC"`. -/
theorem triage_reserved_bypass_witness :
    (triage envPatchRejected (fun _ => some { clientCode := some "HUN" }) "01 May 2025"
        (some "brief") "x").reads = [] ∧
    (triage envPatchRejected (fun _ => some { clientCode := some "HUN" }) "01 May 2025"
        (some "brief") "x").writes = [] ∧
    (triage envPatchRejected (fun _ => some { clientCode := some "HUN" }) "01 May 2025"
        (some "brief") "x").resp.jobNumber = some ("HUN" ++ " TBC") ∧
    (triage envPatchRejected (fun _ => some { clientCode := some "HUN" }) "01 May 2025"
        (some "brief") "x").resp.teamId = some none ∧
    (triage envPatchRejected (fun _ => some { clientCode := some "HUN" }) "01 May 2025"
        (some "brief") "x").resp.sharepointUrl = some none ∧
    (triage envPatchRejected (fun _ => some { clientCode := some "HUN" }) "01 May 2025"
        (some "brief") "x").clientRecordId = none := by
  have h := triage_reserved_bypass envPatchRejected
    (fun _ => some { clientCode := some "HUN" }) "01 May 2025" "brief" "x"
    { clientCode := some "HUN" } (by decide) rfl (Or.inl rfl)
  simpa using h

/-- Claim C6: when the fence-stripped completion is not parseable JSON,
`/triage` responds 500 with `error = "Claude returned invalid JSON"`
and `raw_response` equal to the exact fence-stripped text (the local
`content` variable is reassigned to the stripped text before
`json.loads` runs, so the original fenced text is not echoed and no
default object is substituted). -/
theorem triage_invalid_json_response (env : LedgerEnv)
    (parseJson : String → Option TriageAnalysis) (today ec completion : String)
    (hec : ec ≠ "")
    (hp : parseJson (strip_markdown_json completion) = none) :
    (triage env parseJson today (some ec) completion).resp.status = 500 ∧
    (triage env parseJson today (some ec) completion).resp.errorMsg =
      some "Claude returned invalid JSON" ∧
    (triage env parseJson today (some ec) completion).resp.rawResponse =
      some (strip_markdown_json completion) := by
  simp [triage, hec, hp]

/-- Witness for claim C6 at a fenced non-JSON completion; the stripped
text `"not json"` differs from the fenced original, and it is what the
response echoes. -/
theorem triage_invalid_json_response_witness :
    (triage {} (fun _ => none) "01 May 2025" (some "brief")
        "```json\nnot json\n```").resp.status = 500 ∧
    (triage {} (fun _ => none) "01 May 2025" (some "brief")
        "```json\nnot json\n```").resp.errorMsg =
      some "Claude returned invalid JSON" ∧
    (triage {} (fun _ => none) "01 May 2025" (some "brief")
        "```json\nnot json\n```").resp.rawResponse = some "not json" ∧
    strip_markdown_json "```json\nnot json\n```" = "not json" := by
  have h := triage_invalid_json_response {} (fun _ => none) "01 May 2025" "brief"
    "```json\nnot json\n```" (by decide) rfl
  exact ⟨h.1, h.2.1, by rw [h.2.2]; decide, by decide⟩

/-- Concatenating a nonempty list of bullet paragraphs never yields the
empty string, so the `if questions_html` truthiness test in
`build_triage_email` is exactly an emptiness test on the questions
list. -/
theorem joinStrs_map_bulletP_eq_empty_iff (qs : List String) :
    joinStrs (qs.map bulletP) = "" ↔ qs = [] := by
  cases qs with
  | nil => simp [joinStrs]
  | cons q t =>
      simp only [List.map_cons, joinStrs]
      constructor
      · intro h
        have hl := congrArg String.length h
        rw [String.length_append] at hl
        have hb : (bulletP q).length =
            ("<p style=\"margin: 0 0 8px 0;\">&bull; " : String).length +
              q.length + ("</p>" : String).length := by
          simp [bulletP, String.length_append]
        have hpos : 0 < ("<p style=\"margin: 0 0 8px 0;\">&bull; " : String).length := by
          decide
        have hz : ("" : String).length = 0 := rfl
        omega
      · intro h
        exact absurd h (by simp)

/-- Counterexample to claim C3 as stated: in the analysis mapping with
every field absent, the rendered HTML is not the one obtained by
substituting `"TBC"` for the job-name field — `build_triage_email`
falls back to `'New Project'` there, not to the uniform `"TBC"`. -/
theorem build_jobName_fallback_cex :
    ({} : TriageAnalysis).jobName = none ∧
    build_triage_email "HUN TBC" {} (some get_triage_header) "01 May 2025" ≠
      build_triage_email "HUN TBC" { jobName := some "TBC" }
        (some get_triage_header) "01 May 2025" := by
  refine ⟨rfl, fun h => ?_⟩
  have hl := congrArg String.length h
  have h1 : ("New Project" : String).length = 11 := by decide
  have h2 : ("TBC" : String).length = 3 := by decide
  unfold build_triage_email emailHead emailFoot at hl
  simp only [Option.getD_some, Option.getD_none, List.map_nil, joinStrs,
    String.length_append, h1, h2] at hl
  omega

/-- Claim C3 amended: for every recognized field other than the
questions list and the job name, an absent field renders exactly as the
value `"TBC"` would (this includes the two fields the email never
interpolates, vacuously); the job-name field instead renders as
`'New Project'` would. -/
theorem build_field_fallbacks (job_number : String) (a : TriageAnalysis)
    (hu : Option String) (today : String) :
    (a.clientCode = none → build_triage_email job_number a hu today =
      build_triage_email job_number { a with clientCode := some "TBC" } hu today) ∧
    (a.clientName = none → build_triage_email job_number a hu today =
      build_triage_email job_number { a with clientName := some "TBC" } hu today) ∧
    (a.projectOwner = none → build_triage_email job_number a hu today =
      build_triage_email job_number { a with projectOwner := some "TBC" } hu today) ∧
    (a.objective = none → build_triage_email job_number a hu today =
      build_triage_email job_number { a with objective := some "TBC" } hu today) ∧
    (a.liveDate = none → build_triage_email job_number a hu today =
      build_triage_email job_number { a with liveDate := some "TBC" } hu today) ∧
    (a.hunchAsk = none → build_triage_email job_number a hu today =
      build_triage_email job_number { a with hunchAsk := some "TBC" } hu today) ∧
    (a.nextAction = none → build_triage_email job_number a hu today =
      build_triage_email job_number { a with nextAction := some "TBC" } hu today) ∧
    (a.who = none → build_triage_email job_number a hu today =
      build_triage_email job_number { a with who := some "TBC" } hu today) ∧
    (a.what = none → build_triage_email job_number a hu today =
      build_triage_email job_number { a with what := some "TBC" } hu today) ∧
    (a.why = none → build_triage_email job_number a hu today =
      build_triage_email job_number { a with why := some "TBC" } hu today) ∧
    (a.teamsPost = none → build_triage_email job_number a hu today =
      build_triage_email job_number { a with teamsPost := some "TBC" } hu today) ∧
    (a.jobName = none → build_triage_email job_number a hu today =
      build_triage_email job_number { a with jobName := some "New Project" } hu today) := by
  obtain ⟨cc, jn, cn, po, ob, ld, ha, na, wo, wh, wy, qs, tp⟩ := a
  refine ⟨?_, ?_, ?_, ?_, ?_, ?_, ?_, ?_, ?_, ?_, ?_, ?_⟩ <;>
    (intro h; dsimp only at h; subst h; rfl)

/-- Witness for amended claim C3: on the all-absent mapping,
substituting `"TBC"` for the client name and `'New Project'` for the
job name each leave the rendered HTML unchanged. -/
theorem build_field_fallbacks_witness :
    build_triage_email "J 001" {} (some get_triage_header) "01 May 2025" =
      build_triage_email "J 001" { clientName := some "TBC" }
        (some get_triage_header) "01 May 2025" ∧
    build_triage_email "J 001" {} (some get_triage_header) "01 May 2025" =
      build_triage_email "J 001" { jobName := some "New Project" }
        (some get_triage_header) "01 May 2025" :=
  ⟨(build_field_fallbacks "J 001" {} (some get_triage_header) "01 May 2025").2.1 rfl,
   (build_field_fallbacks "J 001" {}
      (some get_triage_header) "01 May 2025").2.2.2.2.2.2.2.2.2.2.2 rfl⟩

/-- Claim C8: the rendered email is head ++ questions-block ++ footer,
where the questions block is the literal no-questions paragraph exactly
when the questions list is empty or absent, and otherwise the ordered
concatenation of one bullet paragraph per question (the mapped list has
the same length and its i-th entry is the bullet of the i-th question —
no reordering, no de-duplication). -/
theorem build_questions_rendering (job_number : String) (a : TriageAnalysis)
    (hu : Option String) (today : String) :
    ∃ pre post,
      build_triage_email job_number a hu today =
        pre ++ (if a.questions.getD [] = [] then noQuestionsP
          else joinStrs ((a.questions.getD []).map bulletP)) ++ post ∧
      ((a.questions.getD []).map bulletP).length = (a.questions.getD []).length ∧
      ∀ i (h1 : i < ((a.questions.getD []).map bulletP).length)
        (h2 : i < (a.questions.getD []).length),
        ((a.questions.getD []).map bulletP).get ⟨i, h1⟩ =
          bulletP ((a.questions.getD []).get ⟨i, h2⟩) := by
  refine ⟨emailHead (match hu with
      | some u => if u = "" then headerFallback else headerImg u
      | none => headerFallback) job_number a today, emailFoot, ?_, by simp, ?_⟩
  · unfold build_triage_email
    simp only [joinStrs_map_bulletP_eq_empty_iff]
  · intro i h1 h2
    simp [List.get_eq_getElem, List.getElem_map]

/-- Witness for claim C8: with two questions supplied, the email
contains their two bullet paragraphs contiguously, in order. -/
theorem build_questions_rendering_witness :
    ∃ pre post,
      build_triage_email "J 001" { questions := some ["Launch date?", "Budget?"] }
          (some get_triage_header) "01 May 2025" =
        pre ++ joinStrs ([("Launch date?" : String), "Budget?"].map bulletP) ++ post := by
  obtain ⟨pre, post, h, -, -⟩ := build_questions_rendering "J 001"
    { questions := some ["Launch date?", "Budget?"] } (some get_triage_header) "01 May 2025"
  exact ⟨pre, post, by simpa using h⟩

/-- The fields of the analysis mapping that `build_triage_email`
actually reads (everything except `clientCode` and `teamsPost`). -/
def rendererView (a : TriageAnalysis) :
    Option String × Option String × Option String × Option String ×
      Option String × Option String × Option String × Option String ×
      Option String × Option String × Option (List String) :=
  (a.jobName, a.clientName, a.projectOwner, a.objective, a.liveDate,
   a.hunchAsk, a.nextAction, a.who, a.what, a.why, a.questions)

/-- Counterexample to claim C9 as stated: `build_triage_email` reads
the ambient current date (`date.today()`), which is not one of its
arguments — two calls with identical arguments made on different days
return different HTML. -/
theorem build_depends_on_date_cex :
    build_triage_email "HUN TBC" {} (some get_triage_header) "01 May 2025" ≠
      build_triage_email "HUN TBC" {} (some get_triage_header) "25 December 2025" := by
  intro h
  have hl := congrArg String.length h
  have h1 : ("01 May 2025" : String).length = 11 := by decide
  have h2 : ("25 December 2025" : String).length = 16 := by decide
  unfold build_triage_email emailHead emailFoot at hl
  simp only [Option.getD_some, Option.getD_none, List.map_nil, joinStrs,
    String.length_append, h1, h2] at hl
  omega

/-- Claim C9 amended: the renderer is deterministic given the current
date: its output is a function of the job number, the header URL, the
date string, and the fields of the analysis mapping it reads — two
analyses agreeing on `rendererView` (they may differ on `clientCode`
and `teamsPost`) render identically. -/
theorem build_deterministic_given_date (job_number : String) (hu : Option String)
    (today : String) (a b : TriageAnalysis)
    (h : rendererView a = rendererView b) :
    build_triage_email job_number a hu today =
      build_triage_email job_number b hu today := by
  obtain ⟨cc, jn, cn, po, ob, ld, ha, na, wo, wh, wy, qs, tp⟩ := a
  obtain ⟨cc', jn', cn', po', ob', ld', ha', na', wo', wh', wy', qs', tp'⟩ := b
  simp only [rendererView, Prod.mk.injEq] at h
  obtain ⟨h1, h2, h3, h4, h5, h6, h7, h8, h9, h10, h11⟩ := h
  subst h1; subst h2; subst h3; subst h4; subst h5; subst h6
  subst h7; subst h8; subst h9; subst h10; subst h11
  rfl

/-- Witness for amended claim C9: two mappings differing only in
`clientCode` and `teamsPost` render the same HTML. -/
theorem build_deterministic_given_date_witness :
    rendererView { clientCode := some "AAA", teamsPost := some "a post" } =
      rendererView {} ∧
    build_triage_email "J 001" { clientCode := some "AAA", teamsPost := some "a post" }
        (some get_triage_header) "01 May 2025" =
      build_triage_email "J 001" {} (some get_triage_header) "01 May 2025" :=
  ⟨rfl, build_deterministic_given_date "J 001" (some get_triage_header) "01 May 2025"
    { clientCode := some "AAA", teamsPost := some "a post" } {} rfl⟩

/-- The head of a `dropWhile p` result never satisfies `p`. -/
theorem dropWhile_head_not (p : Char → Bool) (l : List Char) :
    ∀ c, ((l.dropWhile p).head? = some c) → p c = false := by
  induction l with
  | nil => intro c h; simp [List.dropWhile] at h
  | cons a l ih =>
      intro c h
      rw [List.dropWhile_cons] at h
      by_cases hpa : p a = true
      · rw [if_pos hpa] at h
        exact ih c h
      · rw [if_neg hpa] at h
        rw [List.head?_cons] at h
        injection h with h
        subst h
        exact Bool.eq_false_iff.mpr hpa

/-- `dropWhile p` is the identity when the head does not satisfy `p`. -/
theorem dropWhile_eq_self_of_head (p : Char → Bool) (l : List Char)
    (h : ∀ c, l.head? = some c → p c = false) : l.dropWhile p = l := by
  cases l with
  | nil => rfl
  | cons a l =>
      have hpa : ¬ p a = true := by simp [h a rfl]
      rw [List.dropWhile_cons, if_neg hpa]

/-- `dropWhile p l` is a suffix of `l`. -/
theorem exists_append_dropWhile (p : Char → Bool) (l : List Char) :
    ∃ pre, l = pre ++ l.dropWhile p := by
  induction l with
  | nil => exact ⟨[], rfl⟩
  | cons a l ih =>
      by_cases hpa : p a = true
      · obtain ⟨pre, hp⟩ := ih
        refine ⟨a :: pre, ?_⟩
        rw [List.dropWhile_cons, if_pos hpa, List.cons_append, ← hp]
      · refine ⟨[], ?_⟩
        rw [List.dropWhile_cons, if_neg hpa, List.nil_append]

/-- `pyStripL` is the identity on a list whose first and last characters
are not whitespace. -/
theorem pyStripL_eq_self (l : List Char)
    (h1 : ∀ c, l.head? = some c → isPySpace c = false)
    (h2 : ∀ c, l.getLast? = some c → isPySpace c = false) :
    pyStripL l = l := by
  unfold pyStripL
  have hr : l.reverse.dropWhile isPySpace = l.reverse := by
    apply dropWhile_eq_self_of_head
    intro c hc
    rw [List.head?_reverse] at hc
    exact h2 c hc
  rw [hr, List.reverse_reverse]
  exact dropWhile_eq_self_of_head _ _ h1

/-- Stripping is idempotent: a stripped list starts and ends with
non-whitespace (or is empty), so stripping it again changes nothing. -/
theorem pyStripL_idem (l : List Char) : pyStripL (pyStripL l) = pyStripL l := by
  apply pyStripL_eq_self
  · intro c hc
    exact dropWhile_head_not isPySpace _ c hc
  · intro c hc
    have hrev : (pyStripL l).reverse.head? = some c := by
      rw [List.head?_reverse]
      exact hc
    obtain ⟨pre, hp⟩ :=
      exists_append_dropWhile isPySpace ((l.reverse.dropWhile isPySpace).reverse)
    have hy : (l.reverse.dropWhile isPySpace).head? = some c := by
      have hyrev : ((l.reverse.dropWhile isPySpace).reverse).reverse.head? = some c := by
        rw [hp, List.reverse_append]
        have hne : (pyStripL l).reverse ≠ [] := by
          intro hnil
          rw [hnil] at hrev
          cases hrev
        exact (List.head?_append_of_ne_nil ((pyStripL l).reverse) hne).trans hrev
      rw [List.reverse_reverse] at hyrev
      exact hyrev
    exact dropWhile_head_not isPySpace _ c hy

/-- The final `strip()` makes every `strip_markdown_json` result a fixed
point of `pyStripL`. -/
theorem pyStripL_stripL (l : List Char) :
    pyStripL (strip_markdown_jsonL l) = strip_markdown_jsonL l := by
  unfold strip_markdown_jsonL
  exact pyStripL_idem _

/-- A fenced completion starts with a backtick. -/
theorem fenced_head (tag t : List Char) :
    (fenceL ++ tag ++ '\n' :: (t ++ '\n' :: fenceL)).head? = some btChar := by
  simp [fenceL]

/-- A fenced completion ends with a backtick. -/
theorem fenced_last (tag t : List Char) :
    (fenceL ++ tag ++ '\n' :: (t ++ '\n' :: fenceL)).getLast? = some btChar := by
  rw [← List.head?_reverse]
  simp [fenceL, List.reverse_append]

/-- The outer `strip()` leaves a fenced completion unchanged: it starts
and ends with a backtick, which is not whitespace. -/
theorem fenced_pyStrip (tag t : List Char) :
    pyStripL (fenceL ++ tag ++ '\n' :: (t ++ '\n' :: fenceL)) =
      fenceL ++ tag ++ '\n' :: (t ++ '\n' :: fenceL) := by
  apply pyStripL_eq_self
  · intro c hc
    rw [fenced_head] at hc
    injection hc with hc
    subst hc
    decide
  · intro c hc
    rw [fenced_last] at hc
    injection hc with hc
    subst hc
    decide

/-- A fenced completion passes the `startswith('```')` test. -/
theorem fenced_isPrefix (tag t : List Char) :
    fenceL.isPrefixOf (fenceL ++ tag ++ '\n' :: (t ++ '\n' :: fenceL)) = true := by
  simp [fenceL, List.isPrefixOf]

/-- A fenced completion contains a newline. -/
theorem fenced_contains (tag t : List Char) :
    (fenceL ++ tag ++ '\n' :: (t ++ '\n' :: fenceL)).contains '\n' = true := by
  apply List.elem_eq_true_of_mem
  simp

/-- Dropping through the first newline of a fenced completion removes
the fence line (with its tag) and keeps the body and closing fence. -/
theorem afterFirstNewline_append (xs rest : List Char) (h : '\n' ∉ xs) :
    afterFirstNewline (xs ++ '\n' :: rest) = rest := by
  induction xs with
  | nil =>
      show ((('\n' :: rest).dropWhile fun c => c != '\n')).tail = rest
      rw [List.dropWhile_cons, if_neg (by simp)]
      rfl
  | cons a xs ih =>
      have ha : (a != '\n') = true := by
        simp only [bne_iff_ne, ne_eq]
        intro hh
        exact h (by simp [hh])
      show (((a :: (xs ++ '\n' :: rest)).dropWhile fun c => c != '\n')).tail = rest
      rw [List.dropWhile_cons, if_pos ha]
      exact ih (fun hm => h (List.mem_cons_of_mem a hm))

/-- The fence-line drop on a fenced completion. -/
theorem fenced_after (tag t : List Char) (htag : '\n' ∉ tag) :
    afterFirstNewline (fenceL ++ tag ++ '\n' :: (t ++ '\n' :: fenceL)) =
      t ++ '\n' :: fenceL := by
  apply afterFirstNewline_append
  intro hm
  rcases List.mem_append.mp hm with h1 | h2
  · exact absurd h1 (by decide)
  · exact htag h2

/-- The stripped body still ends in the closing fence, so the
`endswith('```')` test passes. -/
theorem tail_isSuffix (t : List Char) :
    fenceL.isSuffixOf (t ++ '\n' :: fenceL) = true := by
  show fenceL.reverse.isPrefixOf (t ++ '\n' :: fenceL).reverse = true
  simp [fenceL, List.reverse_append, List.isPrefixOf]

/-- `rsplit('```', 1)[0]` on the body keeps everything before the
closing fence (the last occurrence is the final one). -/
theorem dropFromLast_tail (t : List Char) :
    dropFromLast fenceL (t ++ '\n' :: fenceL) = t ++ ['\n'] := by
  have hfr : fenceL.reverse = fenceL := by decide
  have hrev : (t ++ '\n' :: fenceL).reverse =
      btChar :: btChar :: btChar :: ('\n' :: t.reverse) := by
    simp [fenceL, List.reverse_append]
  have hidx : firstPrefixIdx fenceL
      (btChar :: btChar :: btChar :: ('\n' :: t.reverse)) = some 0 := by
    rw [firstPrefixIdx, if_pos (by simp [fenceL, List.isPrefixOf])]
  unfold dropFromLast
  rw [hfr, hrev, hidx]
  simp [fenceL]

/-- A trailing newline disappears under the final `strip()`. -/
theorem pyStripL_append_newline (t : List Char) :
    pyStripL (t ++ ['\n']) = pyStripL t := by
  unfold pyStripL
  rw [List.reverse_append,
    show (['\n'] : List Char).reverse ++ t.reverse = '\n' :: t.reverse by simp,
    List.dropWhile_cons, if_pos (by decide)]

/-- `strip_markdown_json` on a fenced completion (over lists): the
fence line with its tag and the closing fence are removed and the body
is stripped. -/
theorem stripL_fenced (tag t : List Char) (htag : '\n' ∉ tag) :
    strip_markdown_jsonL (fenceL ++ tag ++ '\n' :: (t ++ '\n' :: fenceL)) =
      pyStripL t := by
  simp only [strip_markdown_jsonL, fenced_pyStrip tag t, fenced_isPrefix tag t,
    fenced_contains tag t, fenced_after tag t htag, tail_isSuffix t,
    dropFromLast_tail t, pyStripL_append_newline t, if_true]

/-- On an already-stripped list that neither starts nor ends with a
fence, `strip_markdown_json` changes nothing. -/
theorem stripL_of_stripped (r : List Char) (h0 : pyStripL r = r)
    (hpre : fenceL.isPrefixOf r = false)
    (hsuf : fenceL.isSuffixOf r = false) :
    strip_markdown_jsonL r = r := by
  simp [strip_markdown_jsonL, h0, hpre, hsuf]

/-- The `String.data` of a fenced completion, in the shape the list
lemmas use. -/
theorem data_fenced (tag t : String) :
    ("```" ++ tag ++ "\n" ++ t ++ "\n```").data =
      fenceL ++ tag.data ++ '\n' :: (t.data ++ '\n' :: fenceL) := by
  have hfl : fenceL = ['\x60', '\x60', '\x60'] := by decide
  simp [String.data_append, hfl]

/-- Counterexample to claim C7 as stated: `strip_markdown_json` is not
idempotent.  On `"` ``` `"` + newline + `"` ```abc `"` one application
yields `"` ```abc `"` (the trailing-fence test fails, so the leading
backticks of the second line survive), and a second application then
strips them to `"abc"`. -/
theorem strip_markdown_json_not_idempotent_cex :
    strip_markdown_json "```\n```abc" = "```abc" ∧
    strip_markdown_json (strip_markdown_json "```\n```abc") = "abc" ∧
    ("abc" : String) ≠ "```abc" := by
  refine ⟨by decide, by decide, by decide⟩

/-- Claim C7 amended: (1) `strip_markdown_json` is idempotent on every
string whose output does not itself begin or end with a triple-backtick
fence (the counterexample shows the restriction is needed); (2) a
string whose stripped form is unfenced is returned unchanged up to
whitespace trimming; (3) for every inner text, wrapping in a fence with
any newline-free language tag and wrapping in a fence without a tag
both strip back to the same inner text, namely the trimmed body. -/
theorem strip_markdown_json_behaviour :
    (∀ s : String, fenceL.isPrefixOf (strip_markdown_json s).data = false →
      fenceL.isSuffixOf (strip_markdown_json s).data = false →
      strip_markdown_json (strip_markdown_json s) = strip_markdown_json s) ∧
    (∀ s : String, fenceL.isPrefixOf (pyStripL s.data) = false →
      fenceL.isSuffixOf (pyStripL s.data) = false →
      strip_markdown_json s = String.mk (pyStripL s.data)) ∧
    (∀ tag t : String, '\n' ∉ tag.data →
      strip_markdown_json ("```" ++ tag ++ "\n" ++ t ++ "\n```") =
        String.mk (pyStripL t.data) ∧
      strip_markdown_json ("```" ++ "\n" ++ t ++ "\n```") =
        String.mk (pyStripL t.data)) := by
  refine ⟨?_, ?_, ?_⟩
  · intro s hpre hsuf
    exact congrArg String.mk
      (stripL_of_stripped (strip_markdown_jsonL s.data) (pyStripL_stripL s.data)
        hpre hsuf)
  · intro s hpre hsuf
    apply congrArg String.mk
    simp [strip_markdown_jsonL, hpre, hsuf, pyStripL_idem]
  · intro tag t htag
    constructor
    · apply congrArg String.mk
      rw [show ("```" ++ tag ++ "\n" ++ t ++ "\n```").data =
          fenceL ++ tag.data ++ '\n' :: (t.data ++ '\n' :: fenceL) from
          data_fenced tag t]
      exact stripL_fenced tag.data t.data htag
    · apply congrArg String.mk
      rw [show ("```" ++ "\n" ++ t ++ "\n```").data =
          fenceL ++ ([] : List Char) ++ '\n' :: (t.data ++ '\n' :: fenceL) by
          have := data_fenced "" t
          simpa using this]
      exact stripL_fenced [] t.data (by simp)

/-- Witness for amended claim C7: idempotence on an output with no
fences, trim-only behaviour on an unfenced input, and agreement of the
tagged and untagged fencings of a concrete body. -/
theorem strip_markdown_json_behaviour_witness :
    strip_markdown_json (strip_markdown_json "abc") = strip_markdown_json "abc" ∧
    strip_markdown_json " hi " = String.mk (pyStripL (" hi " : String).data) ∧
    strip_markdown_json ("```" ++ "json" ++ "\n" ++ "payload" ++ "\n```") =
      String.mk (pyStripL ("payload" : String).data) ∧
    strip_markdown_json ("```" ++ "\n" ++ "payload" ++ "\n```") =
      String.mk (pyStripL ("payload" : String).data) := by
  obtain ⟨hdup, hplain⟩ :=
    strip_markdown_json_behaviour.2.2 "json" "payload" (by decide)
  exact ⟨strip_markdown_json_behaviour.1 "abc" (by decide) (by decide),
    strip_markdown_json_behaviour.2.1 " hi " (by decide) (by decide),
    hdup, hplain⟩
